import Mathlib

/-!
Verification development for the `tsvd.pyx` wrapper
(`src/python/cuml/decomposition/tsvd.pyx`): a shallow embedding of the
`TruncatedSVD` estimator (its `__init__`, `fit`, `transform`,
`inverse_transform`, `get_params`, `set_params` methods and the
`TSVDparams` configuration object), together with theorems settling the
spec claims about it.

Modelling conventions:
- Python values flowing through the wrapper are modelled by `PyVal`
  (None, int, float as exact rationals, str, and the C solver enum).
- Python objects whose attributes are read and written by name
  (`self.params`, dictionaries) are modelled by association lists with
  Python dict/attribute semantics (`setattr` updates in place, `getattrD`
  is getattr with a default).
- Python exceptions are modelled by `PyErr`; since a raise may leave
  earlier attribute mutations behind, stateful methods return the state
  at raise time together with an optional error, not an `Except`.
- Device allocation and native calls are side effects the claims talk
  about, so each method result records boolean effect flags in the order
  the source performs them.
- The native library behind the foreign-function boundary
  (`tsvdFit`, `tsvdFitTransform`, ...) is not part of `src/`; where a
  claim depends on it, it is modelled from the spec (doc comments below
  mark those definitions).
-/

namespace Tsvd

/-- Element dtype of an input matrix (np.float32 / np.float64). -/
inductive DType
  | float32
  | float64
deriving DecidableEq, Repr

/-- The C solver enum from `cuml.decomposition.utils` (COV_EIG_DQ for
full/auto, COV_EIG_JACOBI for jacobi). -/
inductive SvdSolver
  | COV_EIG_DQ
  | COV_EIG_JACOBI
deriving DecidableEq, Repr

/-- Python values stored in estimator/config attributes. Floats are
modelled as exact rationals. -/
inductive PyVal
  | none
  | int (n : Int)
  | float (q : ℚ)
  | str (s : String)
  | solver (s : SvdSolver)
deriving DecidableEq, Repr

/-- Python exceptions raised by the wrapper: the source raises only
TypeError, ValueError and (via dict lookup) KeyError. -/
inductive PyErr
  | typeError (msg : String)
  | valueError (msg : String)
  | keyError (k : PyVal)
deriving DecidableEq, Repr

/-- A Python attribute dictionary / dict: keys in insertion order. -/
abbrev AttrMap := List (String × PyVal)

/-- `setattr obj k v` / `d[k] = v`: update in place if the key exists
(keeping its position), otherwise append. -/
def setattr (m : AttrMap) (k : String) (v : PyVal) : AttrMap :=
  match m with
  | [] => [(k, v)]
  | (k', v') :: rest => if k' = k then (k, v) :: rest else (k', v') :: setattr rest k v

/-- `getattr obj k default` / `d.get(k, default)`. -/
def getattrD (m : AttrMap) (k : String) (d : PyVal) : PyVal :=
  match m with
  | [] => d
  | (k', v') :: rest => if k' = k then v' else getattrD rest k d

theorem getattrD_setattr_same (m : AttrMap) (k : String) (v d : PyVal) :
    getattrD (setattr m k v) k d = v := by
  induction m with
  | nil => simp [setattr, getattrD]
  | cons hd tl ih =>
    obtain ⟨k', v'⟩ := hd
    by_cases h : k' = k
    · simp [setattr, getattrD, h]
    · simp [setattr, getattrD, h, ih]

theorem getattrD_setattr_ne (m : AttrMap) (k k' : String) (v d : PyVal)
    (h : k' ≠ k) : getattrD (setattr m k v) k' d = getattrD m k' d := by
  induction m with
  | nil =>
    simp only [setattr, getattrD, if_neg (Ne.symm h)]
  | cons hd tl ih =>
    obtain ⟨k₀, v₀⟩ := hd
    by_cases h0 : k₀ = k
    · subst h0
      simp only [setattr, if_pos rfl, getattrD,
        if_neg (Ne.symm h)]
    · simp only [setattr, if_neg h0]
      by_cases h1 : k₀ = k'
      · simp [getattrD, h1]
      · simp [getattrD, h1, ih]

/-- Cython conversion of a Python value to a C integer field
(`params.n_components = ...` and friends). `None` and other non-ints
raise the conversion TypeError. -/
def pyToInt : PyVal → Except PyErr Int
  | .int n => .ok n
  | _ => .error (.typeError "an integer is required")

/-- Cython conversion of a Python value to a C float field
(`params.tol = ...`); accepts ints and floats. -/
def pyToFloat : PyVal → Except PyErr ℚ
  | .float q => .ok q
  | .int n => .ok (n : ℚ)
  | _ => .error (.typeError "a float is required")

/-- Cython conversion of a Python value to the C solver enum field
(`params.algorithm = self.params.svd_solver`). -/
def pyToSolver : PyVal → Except PyErr SvdSolver
  | .solver s => .ok s
  | _ => .error (.typeError "an integer is required")

/-- A dense device/host matrix with shape and dtype: the payload behind a
`cudf.DataFrame` or `np.ndarray` input. `data` is the column-major
element buffer (`as_gpu_matrix` / `order='F'`). -/
structure NdMatrix where
  dtype : DType
  n_rows : Nat
  n_cols : Nat
  data : List ℚ
deriving DecidableEq, Repr

/-- The runtime type of the `X` argument: the wrapper dispatches on
`isinstance(X, cudf.DataFrame)` / `isinstance(X, np.ndarray)` and rejects
everything else. -/
inductive PyInput
  | dataframe (m : NdMatrix)
  | ndarray (m : NdMatrix)
  | other
deriving DecidableEq, Repr

/-- `self.components_` changes type during the object lifetime: `None`
after `__init__`, a flat device buffer after `_initialize_arrays`, a
DataFrame (list of `n_cols` columns of `n_components` entries) at the
end of `fit`. -/
inductive ComponentsVal
  | noneV
  | buf (b : List ℚ)
  | df (cols : List (List ℚ))
deriving DecidableEq, Repr

/-- The `TruncatedSVD` estimator object: its attributes as assigned by
`__init__`, `fit` and `set_params`. Device arrays are modelled by the
lists of values they hold; the `*_ptr` attributes (raw pointers into
device buffers) are modelled by the buffer contents they point at when
set, `none` while they are Python `None`. -/
structure Estimator where
  n_componentsAttr : PyVal
  tolAttr : PyVal
  n_iterAttr : PyVal
  random_stateAttr : PyVal
  algorithm : PyVal
  params : AttrMap
  gdf_datatype : Option DType
  components_ : ComponentsVal
  explained_variance_buf : Option (List ℚ)
  explained_variance_ratio_buf : Option (List ℚ)
  singular_values_buf : Option (List ℚ)
  mean_buf : Option (List ℚ)
  noise_variance_buf : Option (List ℚ)
  trans_input_buf : Option (List ℚ)
  components_ptr : Option (List ℚ)
  explained_variance_ptr : Option (List ℚ)
  explained_variance_ratio_ptr : Option (List ℚ)
  singular_values_ptr : Option (List ℚ)
deriving DecidableEq, Repr

/-- `TruncatedSVD._get_algorithm_c_name`: the dict lookup
mapping full/auto to COV_EIG_DQ and jacobi to COV_EIG_JACOBI; any other
value raises `KeyError(value)`. -/
def _get_algorithm_c_name (algorithm : PyVal) : Except PyErr SvdSolver :=
  if algorithm = .str "full" then .ok .COV_EIG_DQ
  else if algorithm = .str "auto" then .ok .COV_EIG_DQ
  else if algorithm = .str "jacobi" then .ok .COV_EIG_JACOBI
  else .error (.keyError algorithm)

/-- `TSVDparams.__init__`: the attribute dictionary of a fresh params
object, in assignment order (`n_cols` and `n_rows` start as `None`). -/
def mkTSVDparams (n_components tol iterated_power random_state
    svd_solver : PyVal) : AttrMap :=
  [("n_components", n_components), ("svd_solver", svd_solver),
   ("tol", tol), ("iterated_power", iterated_power),
   ("random_state", random_state), ("n_cols", .none), ("n_rows", .none)]

/-- Python repr of a value, used by the `__init__` error message
format. -/
def pyRepr : PyVal → String
  | .none => "None"
  | .int n => toString n
  | .float q => toString q
  | .str s => "'" ++ s ++ "'"
  | .solver _ => "<enum>"

/-- The estimator state built by the body of `TruncatedSVD.__init__`
once the algorithm name has been resolved to the C enum `c`. -/
def mkEstimator (n_components tol n_iter random_state algorithm : PyVal)
    (c : SvdSolver) : Estimator :=
  { n_componentsAttr := n_components, tolAttr := tol,
    n_iterAttr := n_iter, random_stateAttr := random_state,
    algorithm := algorithm,
    params := mkTSVDparams n_components tol n_iter random_state (.solver c),
    gdf_datatype := none, components_ := .noneV,
    explained_variance_buf := none, explained_variance_ratio_buf := none,
    singular_values_buf := none, mean_buf := none,
    noise_variance_buf := none, trans_input_buf := none,
    components_ptr := none, explained_variance_ptr := none,
    explained_variance_ratio_ptr := none, singular_values_ptr := none }

/-- `TruncatedSVD.__init__`: validates the algorithm name against
full/auto/jacobi (TypeError otherwise) and builds the estimator. -/
def TruncatedSVD_init (n_components tol n_iter random_state
    algorithm : PyVal) : Except PyErr Estimator :=
  if algorithm = .str "full" ∨ algorithm = .str "auto" ∨
      algorithm = .str "jacobi" then
    match _get_algorithm_c_name algorithm with
    | .ok c => .ok (mkEstimator n_components tol n_iter random_state
        algorithm c)
    | .error e => .error e
  else
    .error (.typeError ("algorithm " ++ pyRepr algorithm ++
      " is not supported"))

/-- The default-constructed estimator `TruncatedSVD()`:
n_components=1, tol=1e-7, n_iter=15, random_state=None,
algorithm='full'. -/
def est0 : Estimator :=
  mkEstimator (.int 1) (.float (1 / 10000000)) (.int 15) .none
    (.str "full") .COV_EIG_DQ

/-- Entry (i, j) of a column-major buffer with `nRows` rows (0 for an
index outside the buffer). -/
def matEntry (b : List ℚ) (nRows i j : Nat) : ℚ :=
  b.getD (j * nRows + i) 0

/-- Modelled from the spec: the native `tsvdTransform` is absent from
`src/` (it sits behind the foreign-function boundary). Per spec section
4.4 it is the pure projection `X_new * components` using the dimensions
passed in `params`: the result is the column-major
`n_rows x n_components` buffer with entry (i, j) equal to the inner
product of row i of the input (read with `params.n_cols` columns) and
component j of the `n_components x n_cols` column-major components
buffer. -/
def tsvdTransformC (input components : List ℚ)
    (nRows nCols k : Nat) : List ℚ :=
  ((List.range k).map (fun j =>
    (List.range nRows).map (fun i =>
      ((List.range nCols).map (fun c =>
        matEntry input nRows i c * matEntry components k j c)).sum))).flatten

/-- Modelled from the spec: the native `tsvdInverseTransform` is absent
from `src/`. Per spec section 4.5 it computes `Z * transpose components`,
a column-major `n_rows x n_cols` buffer with entry (i, c) equal to the
inner product of row i of `Z` with column c of the components buffer. -/
def tsvdInverseTransformC (trans components : List ℚ)
    (nRows k nCols : Nat) : List ℚ :=
  ((List.range nCols).map (fun c =>
    (List.range nRows).map (fun i =>
      ((List.range k).map (fun j =>
        matEntry trans nRows i j * matEntry components k j c)).sum))).flatten

/-- The C `paramsTSVD` struct filled in by `fit` before the native
call. -/
structure ParamsTSVD where
  n_components : Int
  n_rows : Int
  n_cols : Int
  n_iterations : Int
  tol : ℚ
  algorithm : SvdSolver
deriving DecidableEq, Repr

/-- Modelled from the spec: the numeric output of the native
`tsvdFit` / `tsvdFitTransform` (covariance eigendecomposition or Jacobi
iteration) is absent from `src/`; the wrapper only passes buffers to it.
The model is therefore parametric in what the native solver writes into
each output buffer, as a function of the input matrix and the params
struct; every theorem about `fit` below holds for an arbitrary such
engine. -/
structure NativeEngine where
  componentsOut : NdMatrix → ParamsTSVD → List ℚ
  singularValsOut : NdMatrix → ParamsTSVD → List ℚ
  transInputOut : NdMatrix → ParamsTSVD → List ℚ
  explainedVarOut : NdMatrix → ParamsTSVD → List ℚ
  explainedVarRatioOut : NdMatrix → ParamsTSVD → List ℚ

/-- A trivial concrete engine (used to instantiate closed statements):
every output buffer is left as the zeros it was allocated with. -/
def zeroEngine : NativeEngine :=
  { componentsOut := fun m p => List.replicate (p.n_components.toNat * m.n_cols) 0,
    singularValsOut := fun _ p => List.replicate p.n_components.toNat 0,
    transInputOut := fun m p => List.replicate (m.n_rows * p.n_components.toNat) 0,
    explainedVarOut := fun _ p => List.replicate p.n_components.toNat 0,
    explainedVarRatioOut := fun _ p => List.replicate p.n_components.toNat 0 }

/-- Result of a `fit` call: the estimator state when the method returns
or raises, the raised exception if any, and effect flags in source
order: `deviceInput` records that the input was viewed/copied on device
(`X.as_gpu_matrix()` / `cuda.to_device`), `buffersInitialized` that
`_initialize_arrays` ran (the internal output buffers were allocated),
`nativeCalled` that `tsvdFit`/`tsvdFitTransform` was invoked. -/
structure FitResult where
  est : Estimator
  err : Option PyErr
  deviceInput : Bool
  buffersInitialized : Bool
  nativeCalled : Bool
deriving Repr

/-- `TruncatedSVD.fit(self, X, _transform)`, statement by statement:

1. dispatch on the runtime type of `X`; unsupported types raise
   `TypeError("X matrix format  not supported")` before anything else;
   supported ones set `self.gdf_datatype` and `self.params.n_rows` /
   `self.params.n_cols` and put the input on device;
2. `input_ptr = self._get_ctype_ptr(X_m)`: a zero-element device array
   (zero rows or columns) has a NULL pointer whose ctypes value is
   Python `None`, so the `cdef uintptr_t` assignment raises the Cython
   conversion TypeError;
3. fill the C `paramsTSVD` struct from `self.params` (each assignment is
   a Cython conversion that can raise);
4. `_initialize_arrays` allocates the zero-filled output buffers
   (np.zeros raises ValueError on a negative size);
5. the freshly allocated output buffers are converted to C pointers;
   with `n_components = 0` they are zero-size, their device pointers are
   NULL with ctypes value `None`, and the first `cdef uintptr_t`
   assignment (the components buffer of `n_components*n_cols` elements)
   raises the conversion TypeError — at this point the input is nonzero
   in both dimensions, so each of the five extracted buffers
   (`n_components*n_cols`, three of `n_components`, `n_rows*n_components`
   elements) is zero-size exactly when `n_components = 0`;
6. only then the guard `n_components > n_cols` raises
   `ValueError(' n_components must be < n_features')`;
7. the native solver is called and the result arrays/pointers are bound
   (`self.components_` is rebound to a DataFrame of `n_cols` columns of
   `n_components` entries sliced from the components buffer). -/
def fit (eng : NativeEngine) (self : Estimator) (X : PyInput)
    (F_transform : Bool) : FitResult :=
  match X with
  | .other =>
    ⟨self, some (.typeError "X matrix format  not supported"),
      false, false, false⟩
  | .dataframe m | .ndarray m =>
    let self := { self with
      gdf_datatype := some m.dtype,
      params := setattr (setattr self.params "n_rows" (.int m.n_rows))
        "n_cols" (.int m.n_cols) }
    -- input_ptr conversion: NULL pointer of an empty device view
    if m.n_rows * m.n_cols = 0 then
      ⟨self, some (.typeError "an integer is required"),
        true, false, false⟩
    else
    match pyToInt (getattrD self.params "n_components" .none) with
    | .error e => ⟨self, some e, true, false, false⟩
    | .ok k =>
    match pyToInt (getattrD self.params "iterated_power" .none) with
    | .error e => ⟨self, some e, true, false, false⟩
    | .ok n_iterations =>
    match pyToFloat (getattrD self.params "tol" .none) with
    | .error e => ⟨self, some e, true, false, false⟩
    | .ok tol =>
    match pyToSolver (getattrD self.params "svd_solver" .none) with
    | .error e => ⟨self, some e, true, false, false⟩
    | .ok algo =>
    let prms : ParamsTSVD :=
      ⟨k, m.n_rows, m.n_cols, n_iterations, tol, algo⟩
    -- _initialize_arrays(self.params.n_components, n_rows, n_cols)
    if (m.n_rows : Int) * k < 0 ∨ k * (m.n_cols : Int) < 0 ∨ k < 0 then
      ⟨self, some (.valueError "negative dimensions are not allowed"),
        true, false, false⟩
    else
      let kn := k.toNat
      let self := { self with
        trans_input_buf := some (List.replicate (m.n_rows * kn) 0),
        components_ := .buf (List.replicate (kn * m.n_cols) 0),
        explained_variance_buf := some (List.replicate kn 0),
        explained_variance_ratio_buf := some (List.replicate kn 0),
        mean_buf := some (List.replicate m.n_cols 0),
        singular_values_buf := some (List.replicate kn 0),
        noise_variance_buf := some (List.replicate 1 0) }
      -- output-buffer pointer conversions: with n_rows, n_cols > 0 at
      -- this point, the extracted buffers are zero-size (NULL pointer,
      -- ctypes value None, conversion TypeError) exactly when kn = 0
      if kn = 0 then
        ⟨self, some (.typeError "an integer is required"),
          true, true, false⟩
      else
      -- the validation guard reads self.params.n_components and
      -- self.params.n_cols, already converted to k and m.n_cols above
      if (m.n_cols : Int) < k then
        ⟨self, some (.valueError " n_components must be < n_features"),
          true, true, false⟩
      else
        -- native call: tsvdFit writes components and singular values,
        -- tsvdFitTransform additionally trans_input and the variances
        let comps := eng.componentsOut m prms
        let svals := eng.singularValsOut m prms
        let self := { self with
          components_ := .buf comps,
          singular_values_buf := some svals }
        let self :=
          if F_transform then
            { self with
              trans_input_buf := some (eng.transInputOut m prms),
              explained_variance_buf := some (eng.explainedVarOut m prms),
              explained_variance_ratio_buf :=
                some (eng.explainedVarRatioOut m prms) }
          else self
        -- components_gdf: column i is components_[i*K:(i+1)*K]
        let self := { self with
          components_ := .df ((List.range m.n_cols).map
            (fun i => (comps.drop (i * kn)).take kn)),
          components_ptr := some comps,
          explained_variance_ptr := self.explained_variance_buf,
          explained_variance_ratio_ptr := self.explained_variance_ratio_buf,
          singular_values_ptr := some svals }
        ⟨self, none, true, true, true⟩

/-- Result of a `transform` / `inverse_transform` call. `deviceTouched`
records that the input was viewed/copied on device; `nativeCalled` that
the native kernel was invoked; `output` is the returned DataFrame
content as a flat column-major buffer. -/
structure TransformResult where
  est : Estimator
  err : Option PyErr
  deviceTouched : Bool
  nativeCalled : Bool
  output : Option (List ℚ)
deriving DecidableEq, Repr

/-- `TruncatedSVD.transform(self, X)`, statement by statement: type
dispatch (TypeError on unsupported input, before any device work; the
column count of a DataFrame input is read into a local that is never
used afterwards); `input_ptr = self._get_ctype_ptr(X_m)` (a zero-element
input view has a NULL device pointer with ctypes value `None`, raising
the Cython conversion TypeError); then the C params struct is filled
from `self.params` (`params.n_cols` is the fit-time value; converting a
`None` left by `__init__` raises the Cython TypeError), the output
buffer `np.zeros(params.n_rows*params.n_components)` is allocated and
its pointer converted (zero-size, i.e. zero rows or zero
`n_components`, means NULL and the conversion TypeError),
`self.components_ptr` is converted to a C pointer (`None` raises the
Cython TypeError), and the native `tsvdTransform` runs. Nothing is ever
assigned to `self`. -/
def transform (self : Estimator) (X : PyInput) : TransformResult :=
  match X with
  | .other =>
    ⟨self, some (.typeError "X matrix format  not supported"),
      false, false, none⟩
  | .dataframe m | .ndarray m =>
    -- input_ptr conversion: NULL pointer of an empty device view
    if m.n_rows * m.n_cols = 0 then
      ⟨self, some (.typeError "an integer is required"),
        true, false, none⟩
    else
    match pyToInt (getattrD self.params "n_components" .none) with
    | .error e => ⟨self, some e, true, false, none⟩
    | .ok k =>
    -- params.n_rows = len(X)
    match pyToInt (getattrD self.params "n_cols" .none) with
    | .error e => ⟨self, some e, true, false, none⟩
    | .ok nc =>
    if (m.n_rows : Int) * k < 0 then
      ⟨self, some (.valueError "negative dimensions are not allowed"),
        true, false, none⟩
    else
    -- trans_input_ptr conversion of the zeros(n_rows*n_components)
    -- output buffer: zero-size means NULL, conversion TypeError
    if m.n_rows * k.toNat = 0 then
      ⟨self, some (.typeError "an integer is required"),
        true, false, none⟩
    else
      match self.components_ptr with
      | none => ⟨self, some (.typeError "an integer is required"),
          true, false, none⟩
      | some comps =>
        ⟨self, none, true, true,
          some (tsvdTransformC m.data comps m.n_rows nc.toNat k.toNat)⟩

/-- `TruncatedSVD.inverse_transform(self, X)`, statement by statement:
type dispatch (TypeError on unsupported input);
`trans_input_ptr = self._get_ctype_ptr(X_m)` (a zero-element input view
has a NULL device pointer with ctypes value `None`, raising the Cython
conversion TypeError); C params struct filled from `self.params` (a
`None` fit-time `n_cols` raises the Cython TypeError); allocation of
`np.zeros(params.n_rows*params.n_cols)` and conversion of its pointer
(zero-size means NULL, conversion TypeError); conversion of
`self.components_ptr` (`None` raises TypeError); then the native
`tsvdInverseTransform`. Nothing is assigned to `self`. -/
def inverse_transform (self : Estimator) (X : PyInput) : TransformResult :=
  match X with
  | .other =>
    ⟨self, some (.typeError "X matrix format  not supported"),
      false, false, none⟩
  | .dataframe m | .ndarray m =>
    -- trans_input_ptr conversion: NULL pointer of an empty device view
    if m.n_rows * m.n_cols = 0 then
      ⟨self, some (.typeError "an integer is required"),
        true, false, none⟩
    else
    match pyToInt (getattrD self.params "n_components" .none) with
    | .error e => ⟨self, some e, true, false, none⟩
    | .ok k =>
    -- params.n_rows = len(X)
    match pyToInt (getattrD self.params "n_cols" .none) with
    | .error e => ⟨self, some e, true, false, none⟩
    | .ok nc =>
    if (m.n_rows : Int) * nc < 0 then
      ⟨self, some (.valueError "negative dimensions are not allowed"),
        true, false, none⟩
    else
    -- input_ptr conversion of the zeros(n_rows*n_cols) output buffer:
    -- zero-size means NULL, conversion TypeError
    if m.n_rows * nc.toNat = 0 then
      ⟨self, some (.typeError "an integer is required"),
        true, false, none⟩
    else
      match self.components_ptr with
      | none => ⟨self, some (.typeError "an integer is required"),
          true, false, none⟩
      | some comps =>
        ⟨self, none, true, true,
          some (tsvdInverseTransformC m.data comps m.n_rows k.toNat
            nc.toNat)⟩

/-- The `variables` list of `get_params` (note: `random_state` is listed
twice, and the list names `n_iter` and `iterated_power`, not
`n_iterations`). -/
def get_params_variables : List String :=
  ["n_components", "algorithm", "svd_solver", "tol", "n_iter",
   "random_state", "iterated_power", "random_state", "n_cols", "n_rows"]

/-- `TruncatedSVD.get_params(self, deep=True)`: builds a dict by looping
over `get_params_variables`, reading `getattr(self.params, key, None)`,
except that the `algorithm` entry is overwritten with
`getattr(self, 'algorithm', None)`. -/
def get_params (self : Estimator) : AttrMap :=
  get_params_variables.foldl
    (fun d key =>
      let var_value := getattrD self.params key .none
      let var_value := if key = "algorithm" then self.algorithm
        else var_value
      setattr d key var_value) []

/-- The `variables` list of `set_params` (taken verbatim from the
source: it also admits `svd_solver`, `c_algorithm`, `iterated_power`,
and lists `random_state` twice). -/
def set_params_variables : List String :=
  ["n_components", "algorithm", "tol", "svd_solver", "n_iter",
   "random_state", "c_algorithm", "iterated_power", "random_state"]

/-- Result of a `set_params` call: the estimator state when the call
returns or raises, plus the raised exception if any. (On success the
source returns `self.params`, or `self` when the update mapping is
empty.) -/
structure SetParamsResult where
  est : Estimator
  err : Option PyErr
deriving DecidableEq, Repr

/-- The `for key, value in params.items()` loop of `set_params`: an
unknown key raises `ValueError('Invalid parameter %s for estimator')` —
the `%s` placeholder is part of the raised message, no formatting is
applied; the key `algorithm` first overwrites `self.algorithm` and only
then resolves the C name (an invalid value therefore raises `KeyError`
with the attribute already overwritten); every other recognized key is
set on `self.params`. (The source condition is
`'algorithm' in params.keys() and key == 'algorithm'`; its first
conjunct is implied by the second since `key` ranges over
`params.keys()`.) -/
def set_params_loop (self : Estimator) :
    List (String × PyVal) → SetParamsResult
  | [] => ⟨self, none⟩
  | (key, value) :: rest =>
    if key ∈ set_params_variables then
      if key = "algorithm" then
        let self := { self with algorithm := value }
        match _get_algorithm_c_name value with
        | .error e => ⟨self, some e⟩
        | .ok c =>
          set_params_loop
            { self with
              params := setattr self.params "svd_solver" (.solver c) }
            rest
      else
        set_params_loop
          { self with params := setattr self.params key value } rest
    else
      ⟨self, some (.valueError "Invalid parameter %s for estimator")⟩

/-- `TruncatedSVD.set_params(self, **params)`: returns `self` untouched
when the mapping is empty, otherwise runs the update loop. -/
def set_params (self : Estimator) (updates : List (String × PyVal)) :
    SetParamsResult :=
  if updates = [] then ⟨self, none⟩ else set_params_loop self updates

/-- Modelled from the spec: step 3 of the eigendecomposition strategy
(spec section 4.2) of the native `tsvdFit`, absent from `src/`: the
eigenvalues returned by the symmetric eigensolver are sorted in
descending order. -/
def sortEigDesc (eigvals : List ℚ) : List ℚ :=
  eigvals.insertionSort (· ≥ ·)

/-- Modelled from the spec: steps 3 and 4 of the eigendecomposition
strategy (spec section 4.2) of the native `tsvdFit`, absent from
`src/`: after sorting the eigensolver output descending, the top
`n_components` eigenvalues are kept and each singular value is the real
square root of its eigenvalue. -/
noncomputable def tsvdSingularValues (eigvals : List ℚ)
    (n_components : Nat) : List ℝ :=
  ((sortEigDesc eigvals).take n_components).map
    (fun q : ℚ => Real.sqrt (q : ℝ))

/- ------------------------------------------------------------------
Theorems settling the claims.
------------------------------------------------------------------ -/

/-- Helper: a concrete 3x3 float32 input, the matrix of the docstring
example (columns [1,2,5], [4,2,2], [4,2,1] is not needed exactly; the
shape is what matters). -/
def X33 : NdMatrix :=
  ⟨.float32, 3, 3, [1, 2, 5, 4, 2, 1, 4, 2, 1]⟩

/-- Helper: a concrete 3x4 float32 input, one column more than `X33`. -/
def X34 : NdMatrix :=
  ⟨.float32, 3, 4, [1, 2, 5, 4, 2, 1, 4, 2, 1, 7, 8, 9]⟩

/-- Helper: a concrete float32 input with zero rows and three
columns. -/
def X03 : NdMatrix :=
  ⟨.float32, 0, 3, []⟩

/-- Helper: `transform` never assigns to `self`: every branch returns
the estimator it was given. -/
theorem transform_est_eq (st : Estimator) (X : PyInput) :
    (transform st X).est = st := by
  cases X <;> simp only [transform] <;> (repeat' split) <;> rfl

/-- Helper: `inverse_transform` never assigns to `self`. -/
theorem inverse_transform_est_eq (st : Estimator) (X : PyInput) :
    (inverse_transform st X).est = st := by
  cases X <;> simp only [inverse_transform] <;> (repeat' split) <;> rfl

/-- C6: calling `transform` twice with the identical input and the same
fitted model yields equal results, and neither call mutates the model
state the computation reads: the first call returns the estimator
unchanged, and a second call starting from the state left by the first
is the same call, result for result. -/
theorem transform_pure (st : Estimator) (X : PyInput) :
    (transform st X).est = st ∧
    transform (transform st X).est X = transform st X := by
  refine ⟨transform_est_eq st X, ?_⟩
  rw [transform_est_eq]

/-- C9: for every input X that is neither a DataFrame nor an ndarray,
`fit`, `transform` and `inverse_transform` raise
`TypeError("X matrix format  not supported")` (the wrapper's
UnsupportedInputType error), before any device work, buffer allocation
or native computation, leaving the estimator untouched. -/
theorem unsupported_input_type_error (eng : NativeEngine)
    (st : Estimator) (t : Bool) :
    (fit eng st .other t).err =
      some (.typeError "X matrix format  not supported") ∧
    (fit eng st .other t).deviceInput = false ∧
    (fit eng st .other t).buffersInitialized = false ∧
    (fit eng st .other t).nativeCalled = false ∧
    (fit eng st .other t).est = st ∧
    (transform st .other).err =
      some (.typeError "X matrix format  not supported") ∧
    (transform st .other).deviceTouched = false ∧
    (transform st .other).nativeCalled = false ∧
    (inverse_transform st .other).err =
      some (.typeError "X matrix format  not supported") ∧
    (inverse_transform st .other).deviceTouched = false ∧
    (inverse_transform st .other).nativeCalled = false :=
  ⟨rfl, rfl, rfl, rfl, rfl, rfl, rfl, rfl, rfl, rfl, rfl⟩

/-- C3 (amended): on a never-fitted estimator (fit-time `n_cols` still
the `None` that `__init__` left, `n_components` an int), `transform` and
`inverse_transform` fail with the incidental Cython conversion
`TypeError("an integer is required")` raised while assigning
`self.params.n_cols` to the C params struct — not with a dedicated
error signalling missing model state — and the native kernel is never
reached. -/
theorem transform_unfitted_typeerror (st : Estimator) (m : NdMatrix)
    (k : Int)
    (h1 : getattrD st.params "n_components" PyVal.none = .int k)
    (h2 : getattrD st.params "n_cols" PyVal.none = .none) :
    ((transform st (.dataframe m)).err =
        some (.typeError "an integer is required") ∧
      (transform st (.dataframe m)).nativeCalled = false) ∧
    ((transform st (.ndarray m)).err =
        some (.typeError "an integer is required") ∧
      (transform st (.ndarray m)).nativeCalled = false) ∧
    ((inverse_transform st (.dataframe m)).err =
        some (.typeError "an integer is required") ∧
      (inverse_transform st (.dataframe m)).nativeCalled = false) ∧
    ((inverse_transform st (.ndarray m)).err =
        some (.typeError "an integer is required") ∧
      (inverse_transform st (.ndarray m)).nativeCalled = false) := by
  simp [transform, inverse_transform, h1, h2, pyToInt]

/-- C3 counterexample: on the freshly constructed default estimator,
`transform` raises the generic integer-conversion TypeError (there is no
dedicated unfitted-model error anywhere in the source: the only error
kinds it raises are TypeError, ValueError and KeyError). -/
theorem transform_unfitted_typeerror_cx :
    (transform est0 (.dataframe X33)).err =
      some (.typeError "an integer is required") ∧
    (transform est0 (.dataframe X33)).nativeCalled = false ∧
    (inverse_transform est0 (.dataframe X33)).err =
      some (.typeError "an integer is required") := by
  decide

/-- Witness for the amended C3 theorem at the default estimator and a
concrete 3x3 input. -/
theorem transform_unfitted_typeerror_witness :
    (getattrD est0.params "n_components" PyVal.none = PyVal.int 1 ∧
     getattrD est0.params "n_cols" PyVal.none = PyVal.none) ∧
    (((transform est0 (.dataframe X33)).err =
        some (.typeError "an integer is required") ∧
      (transform est0 (.dataframe X33)).nativeCalled = false) ∧
     ((transform est0 (.ndarray X33)).err =
        some (.typeError "an integer is required") ∧
      (transform est0 (.ndarray X33)).nativeCalled = false) ∧
     ((inverse_transform est0 (.dataframe X33)).err =
        some (.typeError "an integer is required") ∧
      (inverse_transform est0 (.dataframe X33)).nativeCalled = false) ∧
     ((inverse_transform est0 (.ndarray X33)).err =
        some (.typeError "an integer is required") ∧
      (inverse_transform est0 (.ndarray X33)).nativeCalled = false)) :=
  ⟨⟨by decide, by decide⟩,
    transform_unfitted_typeerror est0 X33 1 (by decide) (by decide)⟩

/-- C2 (amended): `transform` performs no column-count validation at
all. On a fitted estimator (int fit-time `n_components` and `n_cols`,
components pointer set), `transform` succeeds and calls the native
kernel with the fit-time `n_cols` even when the input's column count
differs from it: no ShapeMismatch (nor any other) error is raised. (The
source reads the input's column count into a local variable and never
uses it.) -/
theorem transform_no_shape_check (st : Estimator) (m : NdMatrix)
    (k nc : Int) (comps : List ℚ)
    (h1 : getattrD st.params "n_components" PyVal.none = .int k)
    (h2 : getattrD st.params "n_cols" PyVal.none = .int nc)
    (h3 : st.components_ptr = some comps)
    (hk : 0 < k)
    (hr : 0 < m.n_rows)
    (hc : 0 < m.n_cols)
    (hmismatch : (m.n_cols : Int) ≠ nc) :
    (transform st (.dataframe m)).err = none ∧
    (transform st (.dataframe m)).nativeCalled = true ∧
    (transform st (.ndarray m)).err = none ∧
    (transform st (.ndarray m)).nativeCalled = true := by
  have hpos : ¬ ((m.n_rows : Int) * k < 0) :=
    not_lt.mpr (mul_nonneg (Int.natCast_nonneg _) hk.le)
  have hemp : ¬ (m.n_rows * m.n_cols = 0) :=
    Nat.mul_ne_zero hr.ne' hc.ne'
  have hout : ¬ (m.n_rows * k.toNat = 0) :=
    Nat.mul_ne_zero hr.ne' (by omega)
  simp [transform, h1, h2, h3, pyToInt, hpos, hemp, hout]

/-- C2 counterexample: fitting the default estimator on a 3x3 matrix
and then transforming a 3x4 matrix raises nothing: the fitted column
count is 3, the input has 4 columns, yet `transform` returns a result
and invokes the native kernel (here with the trivial zero engine
standing in for the native solver, which the control flow never
consults). -/
theorem transform_no_shape_check_cx :
    getattrD (fit zeroEngine est0 (.dataframe X33) true).est.params
      "n_cols" PyVal.none = PyVal.int 3 ∧
    X34.n_cols = 4 ∧
    (transform (fit zeroEngine est0 (.dataframe X33) true).est
      (.dataframe X34)).err = none ∧
    (transform (fit zeroEngine est0 (.dataframe X33) true).est
      (.dataframe X34)).nativeCalled = true := by
  decide

/-- Witness for the amended C2 theorem: the state fitted on the 3x3
matrix, transformed on the 3x4 matrix. -/
theorem transform_no_shape_check_witness :
    (getattrD (fit zeroEngine est0 (.dataframe X33) true).est.params
        "n_components" PyVal.none = PyVal.int 1 ∧
     getattrD (fit zeroEngine est0 (.dataframe X33) true).est.params
        "n_cols" PyVal.none = PyVal.int 3 ∧
     (fit zeroEngine est0 (.dataframe X33) true).est.components_ptr =
        some [0, 0, 0] ∧
     (0 : Int) < 1 ∧ 0 < X34.n_rows ∧ 0 < X34.n_cols ∧
     ((X34.n_cols : Int) ≠ 3)) ∧
    ((transform (fit zeroEngine est0 (.dataframe X33) true).est
        (.dataframe X34)).err = none ∧
     (transform (fit zeroEngine est0 (.dataframe X33) true).est
        (.dataframe X34)).nativeCalled = true ∧
     (transform (fit zeroEngine est0 (.dataframe X33) true).est
        (.ndarray X34)).err = none ∧
     (transform (fit zeroEngine est0 (.dataframe X33) true).est
        (.ndarray X34)).nativeCalled = true) :=
  ⟨⟨by decide, by decide, by decide, by decide, by decide, by decide,
      by decide⟩,
    transform_no_shape_check
      (fit zeroEngine est0 (.dataframe X33) true).est X34 1 3 [0, 0, 0]
      (by decide) (by decide) (by decide) (by decide) (by decide)
      (by decide) (by decide)⟩

/-- Helper: the params attributes read by `fit`'s C-struct filling are
unchanged by the `n_rows` / `n_cols` assignments done just before. -/
theorem getattrD_after_shape_set (p : AttrMap) (key : String)
    (nr ncl : Nat) (d : PyVal) (hc : key ≠ "n_cols")
    (hr : key ≠ "n_rows") :
    getattrD (setattr (setattr p "n_rows" (.int nr)) "n_cols"
      (.int ncl)) key d = getattrD p key d := by
  rw [getattrD_setattr_ne _ _ _ _ _ hc, getattrD_setattr_ne _ _ _ _ _ hr]

/-- C1 (amended): a `fit` call with `n_components > n_cols` (on an
input that is nonzero in both dimensions, so that the pointer
conversions preceding the guard succeed) raises
`ValueError(' n_components must be < n_features')` (the wrapper's
InvalidParameter error) before any native computation — but only after
`_initialize_arrays` has allocated the internal output buffers and the
input has been put on device, so allocation side effects are observable
when the error is raised. -/
theorem fit_check_after_alloc (eng : NativeEngine) (st : Estimator)
    (m : NdMatrix) (k ni : Int) (t : ℚ) (c : SvdSolver) (tf : Bool)
    (h1 : getattrD st.params "n_components" PyVal.none = .int k)
    (h2 : getattrD st.params "iterated_power" PyVal.none = .int ni)
    (h3 : getattrD st.params "tol" PyVal.none = .float t)
    (h4 : getattrD st.params "svd_solver" PyVal.none = .solver c)
    (hr : 0 < m.n_rows)
    (hc : 0 < m.n_cols)
    (h5 : (m.n_cols : Int) < k) :
    (fit eng st (.dataframe m) tf).err =
      some (.valueError " n_components must be < n_features") ∧
    (fit eng st (.dataframe m) tf).nativeCalled = false ∧
    (fit eng st (.dataframe m) tf).buffersInitialized = true ∧
    (fit eng st (.dataframe m) tf).deviceInput = true := by
  have e1 := getattrD_after_shape_set st.params "n_components"
    m.n_rows m.n_cols PyVal.none (by decide) (by decide)
  have e2 := getattrD_after_shape_set st.params "iterated_power"
    m.n_rows m.n_cols PyVal.none (by decide) (by decide)
  have e3 := getattrD_after_shape_set st.params "tol"
    m.n_rows m.n_cols PyVal.none (by decide) (by decide)
  have e4 := getattrD_after_shape_set st.params "svd_solver"
    m.n_rows m.n_cols PyVal.none (by decide) (by decide)
  have hkpos : 0 ≤ k := le_trans (Int.natCast_nonneg m.n_cols) h5.le
  have hemp : ¬ (m.n_rows * m.n_cols = 0) :=
    Nat.mul_ne_zero hr.ne' hc.ne'
  have hnodim : ¬ ((m.n_rows : Int) * k < 0 ∨
      k * (m.n_cols : Int) < 0 ∨ k < 0) := by
    push_neg
    exact ⟨mul_nonneg (Int.natCast_nonneg _) hkpos,
      mul_nonneg hkpos (Int.natCast_nonneg _), hkpos⟩
  have hkn : ¬ (k.toNat = 0) := by omega
  simp [fit, e1, e2, e3, e4, h1, h2, h3, h4, h5, hemp, hnodim, hkn,
    pyToInt, pyToFloat, pyToSolver]

/-- C1 counterexample: `TruncatedSVD(n_components=4).fit` on a 3x3
matrix raises the ValueError, yet when it is raised the internal output
buffers have already been allocated (`buffersInitialized`, and e.g. the
singular-values buffer observably holds four zeros): there are
allocation side effects before the error. -/
theorem fit_check_after_alloc_cx :
    (fit zeroEngine
      (mkEstimator (.int 4) (.float (1 / 10000000)) (.int 15) .none
        (.str "full") .COV_EIG_DQ) (.dataframe X33) true).err =
      some (.valueError " n_components must be < n_features") ∧
    (fit zeroEngine
      (mkEstimator (.int 4) (.float (1 / 10000000)) (.int 15) .none
        (.str "full") .COV_EIG_DQ) (.dataframe X33) true).nativeCalled
      = false ∧
    (fit zeroEngine
      (mkEstimator (.int 4) (.float (1 / 10000000)) (.int 15) .none
        (.str "full") .COV_EIG_DQ) (.dataframe X33)
      true).buffersInitialized = true ∧
    (fit zeroEngine
      (mkEstimator (.int 4) (.float (1 / 10000000)) (.int 15) .none
        (.str "full") .COV_EIG_DQ) (.dataframe X33)
      true).est.singular_values_buf = some [0, 0, 0, 0] := by
  decide

/-- Witness for the amended C1 theorem at `n_components = 4` on the
3x3 input. -/
theorem fit_check_after_alloc_witness :
    (getattrD (mkEstimator (.int 4) (.float (1 / 10000000)) (.int 15)
        .none (.str "full") .COV_EIG_DQ).params "n_components"
        PyVal.none = PyVal.int 4 ∧
     0 < X33.n_rows ∧ 0 < X33.n_cols ∧ ((X33.n_cols : Int) < 4)) ∧
    ((fit zeroEngine
        (mkEstimator (.int 4) (.float (1 / 10000000)) (.int 15) .none
          (.str "full") .COV_EIG_DQ) (.dataframe X33) true).err =
        some (.valueError " n_components must be < n_features") ∧
     (fit zeroEngine
        (mkEstimator (.int 4) (.float (1 / 10000000)) (.int 15) .none
          (.str "full") .COV_EIG_DQ) (.dataframe X33)
        true).nativeCalled = false ∧
     (fit zeroEngine
        (mkEstimator (.int 4) (.float (1 / 10000000)) (.int 15) .none
          (.str "full") .COV_EIG_DQ) (.dataframe X33)
        true).buffersInitialized = true ∧
     (fit zeroEngine
        (mkEstimator (.int 4) (.float (1 / 10000000)) (.int 15) .none
          (.str "full") .COV_EIG_DQ) (.dataframe X33)
        true).deviceInput = true) :=
  ⟨⟨by decide, by decide, by decide, by decide⟩,
    fit_check_after_alloc zeroEngine
      (mkEstimator (.int 4) (.float (1 / 10000000)) (.int 15) .none
        (.str "full") .COV_EIG_DQ) X33 4 15 (1 / 10000000)
      .COV_EIG_DQ true (by decide) (by decide) (by rfl) (by decide)
      (by decide) (by decide) (by decide)⟩

/-- C4 (amended): `fit` performs no validation of `n_components < 1` or
`n_rows < 1` at all, and such calls do not fail fast before touching
device resources: with `n_components = 0` (on a non-degenerate input)
the input is put on device and the internal output buffers are
allocated, and the call then dies with the incidental Cython
`TypeError("an integer is required")` raised while converting the NULL
pointer of the zero-size components buffer (tsvd.pyx:310); with
`n_rows = 0` the same incidental TypeError is raised while converting
the NULL pointer of the empty device view of the input (tsvd.pyx:298),
after the device view was made. In neither case is a validation
ValueError raised, and the native solver is never reached; the only
validation in `fit` is the `n_components > n_cols` guard. -/
theorem fit_no_min_validation (eng : NativeEngine) (st : Estimator)
    (m : NdMatrix) (k ni : Int) (t : ℚ) (c : SvdSolver) (tf : Bool)
    (h1 : getattrD st.params "n_components" PyVal.none = .int k)
    (h2 : getattrD st.params "iterated_power" PyVal.none = .int ni)
    (h3 : getattrD st.params "tol" PyVal.none = .float t)
    (h4 : getattrD st.params "svd_solver" PyVal.none = .solver c)
    (hdeg : (k = 0 ∧ 0 < m.n_rows ∧ 0 < m.n_cols) ∨ m.n_rows = 0) :
    (fit eng st (.dataframe m) tf).err =
      some (.typeError "an integer is required") ∧
    (∀ msg, (fit eng st (.dataframe m) tf).err ≠
      some (.valueError msg)) ∧
    (fit eng st (.dataframe m) tf).nativeCalled = false ∧
    (fit eng st (.dataframe m) tf).deviceInput = true ∧
    (k = 0 ∧ 0 < m.n_rows ∧ 0 < m.n_cols →
      (fit eng st (.dataframe m) tf).buffersInitialized = true) := by
  rcases hdeg with ⟨hk, hr, hc⟩ | hrow
  · subst hk
    have e1 := getattrD_after_shape_set st.params "n_components"
      m.n_rows m.n_cols PyVal.none (by decide) (by decide)
    have e2 := getattrD_after_shape_set st.params "iterated_power"
      m.n_rows m.n_cols PyVal.none (by decide) (by decide)
    have e3 := getattrD_after_shape_set st.params "tol"
      m.n_rows m.n_cols PyVal.none (by decide) (by decide)
    have e4 := getattrD_after_shape_set st.params "svd_solver"
      m.n_rows m.n_cols PyVal.none (by decide) (by decide)
    have hemp : ¬ (m.n_rows * m.n_cols = 0) :=
      Nat.mul_ne_zero hr.ne' hc.ne'
    have hnodim : ¬ ((m.n_rows : Int) * (0 : Int) < 0 ∨
        (0 : Int) * (m.n_cols : Int) < 0 ∨ (0 : Int) < 0) := by
      norm_num
    simp [fit, e1, e2, e3, e4, h1, h2, h3, h4, hemp, hnodim,
      pyToInt, pyToFloat, pyToSolver]
  · have hemp : m.n_rows * m.n_cols = 0 := by
      rw [hrow, Nat.zero_mul]
    simp [fit, hemp, hrow]

/-- C4 counterexample: `TruncatedSVD(n_components=0).fit` on a 3x3
matrix — a call the claim says must fail fast with a validation error
before touching any device/compute resources — instead puts the input
on device, allocates the internal output buffers, and then raises the
incidental pointer-conversion TypeError, not a validation error; a fit
of the default estimator on a 0x3 matrix likewise raises the
pointer-conversion TypeError only after the device view of the input.
-/
theorem fit_no_min_validation_cx :
    ((fit zeroEngine
        (mkEstimator (.int 0) (.float (1 / 10000000)) (.int 15) .none
          (.str "full") .COV_EIG_DQ) (.dataframe X33) true).err =
        some (.typeError "an integer is required") ∧
     (fit zeroEngine
        (mkEstimator (.int 0) (.float (1 / 10000000)) (.int 15) .none
          (.str "full") .COV_EIG_DQ) (.dataframe X33)
        true).deviceInput = true ∧
     (fit zeroEngine
        (mkEstimator (.int 0) (.float (1 / 10000000)) (.int 15) .none
          (.str "full") .COV_EIG_DQ) (.dataframe X33)
        true).buffersInitialized = true ∧
     (fit zeroEngine
        (mkEstimator (.int 0) (.float (1 / 10000000)) (.int 15) .none
          (.str "full") .COV_EIG_DQ) (.dataframe X33)
        true).nativeCalled = false) ∧
    ((fit zeroEngine est0 (.dataframe X03) true).err =
        some (.typeError "an integer is required") ∧
     (fit zeroEngine est0 (.dataframe X03) true).deviceInput = true ∧
     (fit zeroEngine est0 (.dataframe X03) true).nativeCalled =
        false) := by
  decide

/-- Witness for the amended C4 theorem at `n_components = 0` on the
3x3 input. -/
theorem fit_no_min_validation_witness :
    (getattrD (mkEstimator (.int 0) (.float (1 / 10000000)) (.int 15)
        .none (.str "full") .COV_EIG_DQ).params "n_components"
        PyVal.none = PyVal.int 0 ∧
     ((0 : Int) = 0 ∧ 0 < X33.n_rows ∧ 0 < X33.n_cols)) ∧
    ((fit zeroEngine
        (mkEstimator (.int 0) (.float (1 / 10000000)) (.int 15) .none
          (.str "full") .COV_EIG_DQ) (.dataframe X33) true).err =
        some (.typeError "an integer is required") ∧
     (∀ msg, (fit zeroEngine
        (mkEstimator (.int 0) (.float (1 / 10000000)) (.int 15) .none
          (.str "full") .COV_EIG_DQ) (.dataframe X33) true).err ≠
        some (.valueError msg)) ∧
     (fit zeroEngine
        (mkEstimator (.int 0) (.float (1 / 10000000)) (.int 15) .none
          (.str "full") .COV_EIG_DQ) (.dataframe X33)
        true).nativeCalled = false ∧
     (fit zeroEngine
        (mkEstimator (.int 0) (.float (1 / 10000000)) (.int 15) .none
          (.str "full") .COV_EIG_DQ) (.dataframe X33)
        true).deviceInput = true ∧
     ((0 : Int) = 0 ∧ 0 < X33.n_rows ∧ 0 < X33.n_cols →
      (fit zeroEngine
        (mkEstimator (.int 0) (.float (1 / 10000000)) (.int 15) .none
          (.str "full") .COV_EIG_DQ) (.dataframe X33)
        true).buffersInitialized = true)) :=
  ⟨⟨by decide, ⟨rfl, by decide, by decide⟩⟩,
    fit_no_min_validation zeroEngine
      (mkEstimator (.int 0) (.float (1 / 10000000)) (.int 15) .none
        (.str "full") .COV_EIG_DQ) X33 0 15 (1 / 10000000)
      .COV_EIG_DQ true (by decide) (by decide) (by rfl) (by decide)
      (Or.inl ⟨rfl, by decide, by decide⟩)⟩

/-- C5: for any eigensolver output and any `n_components` at most the
number of eigenvalues (the `n_components <= n_cols` invariant
established by validation), the singular values produced by the modelled
engine have length `n_components`, are sorted in descending order, and
are all non-negative. -/
theorem singular_values_sorted_nonneg (eigvals : List ℚ) (k : Nat)
    (hk : k ≤ eigvals.length) :
    (tsvdSingularValues eigvals k).length = k ∧
    List.Sorted (· ≥ ·) (tsvdSingularValues eigvals k) ∧
    ∀ s ∈ tsvdSingularValues eigvals k, 0 ≤ s := by
  refine ⟨?_, ?_, ?_⟩
  · simp [tsvdSingularValues, sortEigDesc, List.length_insertionSort, hk]
  · have hs : List.Sorted (· ≥ ·) (sortEigDesc eigvals) :=
      List.sorted_insertionSort _ eigvals
    have ht : List.Sorted (· ≥ ·) ((sortEigDesc eigvals).take k) :=
      hs.sublist (List.take_sublist k _)
    refine List.Pairwise.map _ ?_ ht
    intro a b hab
    exact Real.sqrt_le_sqrt (by exact_mod_cast hab)
  · intro s hsmem
    obtain ⟨q, _, hq⟩ := List.mem_map.mp hsmem
    exact hq ▸ Real.sqrt_nonneg _

/-- Witness for the C5 theorem at the eigensolver output [4, 1, 0]
with two components retained. -/
theorem singular_values_sorted_nonneg_witness :
    2 ≤ ([4, 1, 0] : List ℚ).length ∧
    ((tsvdSingularValues [4, 1, 0] 2).length = 2 ∧
     List.Sorted (· ≥ ·) (tsvdSingularValues [4, 1, 0] 2) ∧
     ∀ s ∈ tsvdSingularValues [4, 1, 0] 2, 0 ≤ s) :=
  ⟨by decide, singular_values_sorted_nonneg [4, 1, 0] 2 (by decide)⟩

/-- C7 (code evaluated at the failing input): `set_params` with the
unknown key `bogus` does raise a ValueError, but its message is the
literal string `Invalid parameter %s for estimator` — the `%s`
placeholder is never substituted, so the offending key appears nowhere
in the error — and the estimator is left unchanged. -/
theorem set_params_unknown_key_message :
    (set_params est0 [("bogus", PyVal.int 1)]).err =
      some (.valueError "Invalid parameter %s for estimator") ∧
    ¬ ("bogus".toList <:+:
        ("Invalid parameter %s for estimator").toList) ∧
    (set_params est0 [("bogus", PyVal.int 1)]).est = est0 := by
  refine ⟨by decide, by decide, ?_⟩
  rfl

/-- C8 (amended): for every estimator state, `get_params` returns the
dict with exactly the nine keys of its `variables` list in first-insertion
order (`random_state` is listed twice but dicts keep one entry):
n_components, algorithm, svd_solver, tol, n_iter, random_state,
iterated_power, n_cols, n_rows — each non-algorithm entry bound to
`getattr(self.params, key, None)` and the algorithm entry bound to the
estimator's own `algorithm` attribute. (On a fresh estimator `n_iter`
is absent from `self.params`, whose attribute is named
`iterated_power`, so that entry is None.) -/
theorem get_params_spec (est : Estimator) :
    get_params est =
      [("n_components", getattrD est.params "n_components" .none),
       ("algorithm", est.algorithm),
       ("svd_solver", getattrD est.params "svd_solver" .none),
       ("tol", getattrD est.params "tol" .none),
       ("n_iter", getattrD est.params "n_iter" .none),
       ("random_state", getattrD est.params "random_state" .none),
       ("iterated_power", getattrD est.params "iterated_power" .none),
       ("n_cols", getattrD est.params "n_cols" .none),
       ("n_rows", getattrD est.params "n_rows" .none)] := by
  rfl

/-- C8 counterexample: on the default estimator the returned key set is
not the claimed {n_components, algorithm, tol, n_iterations, n_rows,
n_cols}: there is no `n_iterations` key at all, while `svd_solver`,
`n_iter`, `random_state` and `iterated_power` are present (and the
`n_iter` entry is None, the params object naming that attribute
`iterated_power`). -/
theorem get_params_keys_cx :
    (get_params est0).map Prod.fst =
      ["n_components", "algorithm", "svd_solver", "tol", "n_iter",
       "random_state", "iterated_power", "n_cols", "n_rows"] ∧
    "n_iterations" ∉ (get_params est0).map Prod.fst ∧
    "svd_solver" ∈ (get_params est0).map Prod.fst ∧
    getattrD (get_params est0) "n_iter" (.int 99) = PyVal.none := by
  decide

/-- Helper: on any value outside full/auto/jacobi the name-to-enum dict
lookup raises `KeyError(value)`. -/
theorem get_algorithm_c_name_invalid (v : PyVal)
    (hinv : v ∉ [PyVal.str "full", PyVal.str "auto",
      PyVal.str "jacobi"]) :
    _get_algorithm_c_name v = .error (.keyError v) := by
  simp only [List.mem_cons, List.not_mem_nil, or_false, not_or] at hinv
  obtain ⟨h1, h2, h3⟩ := hinv
  simp [_get_algorithm_c_name, h1, h2, h3]

/-- Helper: the `set_params` loop, run on updates whose keys are all
recognized and pairwise distinct and include `algorithm` bound to a
value the enum lookup rejects, ends in `KeyError(value)` with
`self.algorithm` already overwritten. -/
theorem set_params_loop_algorithm_aux (v : PyVal)
    (hv : _get_algorithm_c_name v = .error (.keyError v)) :
    ∀ (updates : List (String × PyVal)) (self : Estimator),
      (∀ kv ∈ updates, kv.1 ∈ set_params_variables) →
      (updates.map Prod.fst).Nodup →
      ("algorithm", v) ∈ updates →
      (set_params_loop self updates).err = some (.keyError v) ∧
      (set_params_loop self updates).est.algorithm = v := by
  intro updates
  induction updates with
  | nil =>
    intro self _ _ hmem
    cases hmem
  | cons hd tl ih =>
    intro self hrec hnd hmem
    obtain ⟨key, value⟩ := hd
    have hkey : key ∈ set_params_variables :=
      hrec _ (List.mem_cons_self _ _)
    have hnd' := List.nodup_cons.mp hnd
    by_cases halg : key = "algorithm"
    · subst halg
      have hveq : value = v := by
        rcases List.mem_cons.mp hmem with heq | hmemtl
        · exact (Prod.mk.injEq _ _ _ _ ▸ heq).2.symm
        · exact absurd (List.mem_map_of_mem Prod.fst hmemtl) hnd'.1
      subst hveq
      simp [set_params_loop, if_pos hkey, hv]
    · have hmemtl : ("algorithm", v) ∈ tl := by
        rcases List.mem_cons.mp hmem with heq | hmemtl
        · exact absurd ((Prod.mk.injEq _ _ _ _ ▸ heq).1) (Ne.symm halg)
        · exact hmemtl
      simp only [set_params_loop, if_pos hkey, if_neg halg]
      exact ih _ (fun kv hkv => hrec kv (List.mem_cons_of_mem _ hkv))
        hnd'.2 hmemtl

/-- C10 (amended): for every `set_params` call whose update keys are
all recognized and distinct and that binds `algorithm` to a value
outside full/auto/jacobi, the call ends in `KeyError(value)` from the
internal name-to-enum lookup — never in the named-parameter ValueError
used for unknown keys — and when the error is raised the estimator's
`algorithm` attribute has already been overwritten with the invalid
value (the update is not atomic). (The original claim, quantified over
all updates containing such an `algorithm` entry, fails when an unknown
key precedes `algorithm` in the mapping: then the ValueError fires
first and `algorithm` is never touched — see the counterexample.) -/
theorem set_params_algorithm_keyerror (self : Estimator)
    (updates : List (String × PyVal)) (v : PyVal)
    (hrec : ∀ kv ∈ updates, kv.1 ∈ set_params_variables)
    (hnd : (updates.map Prod.fst).Nodup)
    (hmem : ("algorithm", v) ∈ updates)
    (hinv : v ∉ [PyVal.str "full", PyVal.str "auto",
      PyVal.str "jacobi"]) :
    (set_params self updates).err = some (.keyError v) ∧
    (set_params self updates).est.algorithm = v ∧
    ∀ msg, (set_params self updates).err ≠ some (.valueError msg) := by
  have hne : updates ≠ [] := List.ne_nil_of_mem hmem
  have h := set_params_loop_algorithm_aux v
    (get_algorithm_c_name_invalid v hinv) updates self hrec hnd hmem
  simp only [set_params, if_neg hne]
  refine ⟨h.1, h.2, ?_⟩
  intro msg hcontra
  rw [h.1] at hcontra
  exact PyErr.noConfusion (Option.some.inj hcontra)

/-- C10 counterexample: a call whose updates do include `algorithm`
bound to an invalid value, but preceded by an unknown key: the loop
raises the unknown-key ValueError first, no KeyError is raised, and the
`algorithm` attribute is never overwritten — refuting the claim as
stated for every such call. -/
theorem set_params_algorithm_after_unknown_cx :
    ("algorithm", PyVal.str "bogus") ∈
      [("zzz", PyVal.int 1), ("algorithm", PyVal.str "bogus")] ∧
    (set_params est0 [("zzz", PyVal.int 1),
        ("algorithm", PyVal.str "bogus")]).err =
      some (.valueError "Invalid parameter %s for estimator") ∧
    (set_params est0 [("zzz", PyVal.int 1),
        ("algorithm", PyVal.str "bogus")]).est.algorithm =
      PyVal.str "full" := by
  decide

/-- Witness for the amended C10 theorem: updates
[n_components := 3, algorithm := 'bogus'] on the default estimator. -/
theorem set_params_algorithm_keyerror_witness :
    ((∀ kv ∈ [("n_components", PyVal.int 3),
        ("algorithm", PyVal.str "bogus")], kv.1 ∈ set_params_variables) ∧
     ([("n_components", PyVal.int 3),
        ("algorithm", PyVal.str "bogus")].map Prod.fst).Nodup ∧
     ("algorithm", PyVal.str "bogus") ∈
        [("n_components", PyVal.int 3),
         ("algorithm", PyVal.str "bogus")] ∧
     PyVal.str "bogus" ∉ [PyVal.str "full", PyVal.str "auto",
        PyVal.str "jacobi"]) ∧
    ((set_params est0 [("n_components", PyVal.int 3),
        ("algorithm", PyVal.str "bogus")]).err =
        some (.keyError (PyVal.str "bogus")) ∧
     (set_params est0 [("n_components", PyVal.int 3),
        ("algorithm", PyVal.str "bogus")]).est.algorithm =
        PyVal.str "bogus" ∧
     ∀ msg, (set_params est0 [("n_components", PyVal.int 3),
        ("algorithm", PyVal.str "bogus")]).err ≠
        some (.valueError msg)) :=
  ⟨⟨by decide, by decide, by decide, by decide⟩,
    set_params_algorithm_keyerror est0
      [("n_components", PyVal.int 3), ("algorithm", PyVal.str "bogus")]
      (PyVal.str "bogus") (by decide) (by decide) (by decide)
      (by decide)⟩

end Tsvd

